import Mathlib

set_option autoImplicit false

/-
Verification development for the mokey command shell (src/main.go).

The embedding is a shallow, executable translation of main.go:

* configuration values read through viper are modelled as `Option String`
  fields (absent key = `none`; a key present with an empty value =
  `some ""`, matching viper.GetString / viper.IsSet semantics);
* the process-wide logrus logger state is `LogState`;
* the effects performed by `app.Before` (reading the config file,
  `os.OpenFile` on the log path, syslog-hook setup, `Close`) are supplied
  by an environment oracle `World`;
* `before`, `runAction`, `afterHook` and `runApp` mirror `app.Before`,
  the four command actions, `app.After` and `app.RunAndExitOnError`
  (urfave/cli v1: Before runs first; on Before error the deferred After
  still runs and the process exits 1; `log.Fatal` calls `os.Exit(1)`
  directly, skipping the deferred After; an action returning a
  cli.NewExitError makes Command.Run call HandleExitCoder, which prints
  the message and calls os.Exit(code) inside the dispatcher, likewise
  skipping the deferred After);
* `rotationStep` is the body of the SIGHUP goroutine (main.go 94-106);
* `OpenFlags` / `openAt` / `writeRecord` model the POSIX content
  semantics of the `os.OpenFile(path, O_CREATE|O_WRONLY|O_APPEND, 0660)`
  calls used for the log file.
-/

namespace Mokey

/-- File-descriptor identifier for an opened log file handle. -/
abbrev Handle := Nat

/-- The configuration keys main.go reads through viper.  A key absent from
the file is `none`; a key present with value `v` (possibly empty) is
`some v`. -/
structure Config where
  log_level : Option String
  log_target : Option String
  log_file : Option String
  log_format : Option String
  enc_key : Option String
  auth_key : Option String
  deriving DecidableEq

/-- viper.GetString: yields the empty string when the key is absent. -/
def getString (v : Option String) : String := v.getD ""

/-- viper.IsSet: true when the key is present in the file, whatever its
value; a key set to the empty string counts as set. -/
def isSet (v : Option String) : Bool := v.isSome

/-- logrus severity levels used by main.go. -/
inductive Level where
  | error
  | warn
  | info
  | debug
  deriving DecidableEq

/-- The io.Writer installed by log.SetOutput: os.Stderr, os.Stdout, or the
opened log file. The syslog destination is never installed as the output;
it is only attached as a hook (main.go 110-115). -/
inductive Output where
  | stderr
  | stdout
  | file (h : Handle)
  deriving DecidableEq

/-- Mutable state of the process-wide logrus logger. -/
structure LogState where
  level : Level
  output : Output
  syslogHook : Bool
  json : Bool
  deriving DecidableEq

/-- logrus defaults before app.Before runs: InfoLevel, os.Stderr output,
no hooks, text formatter. -/
def initLogState : LogState :=
  { level := .info, output := .stderr, syslogHook := false, json := false }

/-- Environment oracle for the effects app.Before performs: the config
file read, os.OpenFile on the log path (`none` = I/O error), syslog hook
setup, and the Close performed by app.After. -/
structure World where
  readConfig : Option Config
  openLogFile : String → Option Handle
  syslogOk : Bool
  closeOk : Bool

/-- Severity-threshold selection (main.go 52-67): the --debug flag forces
DebugLevel; otherwise the switch on log_level, defaulting to WarnLevel.
The Go switch on a string is translated as a sequential comparison
chain. -/
def setLevelFrom (debugFlag : Bool) (log_level : Option String) : Level :=
  if debugFlag then .debug
  else
    if getString log_level = "error" then .error
    else if getString log_level = "warn" then .warn
    else if getString log_level = "info" then .info
    else if getString log_level = "debug" then .debug
    else .warn

/-- The pieces of process state that app.Before mutates besides the
logger: the global `logFile` variable (main.go 23) and whether the SIGHUP
rotation goroutine was started. -/
structure BeforeState where
  log : LogState
  logFile : Option Handle
  watcherStarted : Bool
  deriving DecidableEq

/-- State after the level assignment, before the log_target switch. -/
def st1 (debugFlag : Bool) (cfg : Config) : BeforeState :=
  { log := { initLogState with level := setLevelFrom debugFlag cfg.log_level }
    logFile := none
    watcherStarted := false }

/-- The log_target switch of app.Before (main.go 69-119), translated as a
sequential comparison chain. The file case first checks the path for
emptiness, then opens; on open success it installs the handle, records it
in the global logFile, and starts the rotation goroutine. The syslog case
only adds a hook, leaving the output untouched. Unrecognized targets fall
through to os.Stderr. -/
def targetStep (w : World) (cfg : Config) (st : BeforeState) : Except String BeforeState :=
  if getString cfg.log_target = "stderr" then
    .ok { st with log := { st.log with output := .stderr } }
  else if getString cfg.log_target = "stdout" then
    .ok { st with log := { st.log with output := .stdout } }
  else if getString cfg.log_target = "file" then
    if (getString cfg.log_file).length = 0 then .error "Please specify a log file"
    else
      match w.openLogFile (getString cfg.log_file) with
      | some h =>
        .ok { st with log := { st.log with output := .file h }
                      logFile := some h
                      watcherStarted := true }
      | none => .error "Failed to open log file"
  else if getString cfg.log_target = "syslog" then
    if w.syslogOk then .ok { st with log := { st.log with syslogHook := true } }
    else .error "Failed to setup syslog output"
  else .ok { st with log := { st.log with output := .stderr } }

/-- The log_format step (main.go 121-125): switch to the JSON formatter
when log_format is "json", otherwise keep the default text formatter. -/
def applyFormat (cfg : Config) (st : BeforeState) : BeforeState :=
  if getString cfg.log_format = "json" then { st with log := { st.log with json := true } }
  else st

/-- The condition on main.go 129 that lets startup proceed past the
validation gate: both secret keys are set (viper.IsSet), regardless of
their values. -/
def validationGatePasses (cfg : Config) : Bool :=
  isSet cfg.enc_key && isSet cfg.auth_key

/-- How app.Before finishes: an error returned to cli (config read or
logging setup failure), a log.Fatal (gate failure: fatal record then
os.Exit(1)), or normal completion. -/
inductive BeforeOutcome where
  | err (msg : String)
  | fatal (msg : String)
  | ok
  deriving DecidableEq

/-- Whether the outcome is an error returned to cli. -/
def BeforeOutcome.isErr : BeforeOutcome → Bool
  | .err _ => true
  | _ => false

/-- app.Before once the config file has been read successfully:
level assignment, log_target switch, log_format step, validation gate
(main.go 52-133). -/
def beforeWithConfig (w : World) (debugFlag : Bool) (cfg : Config) :
    BeforeOutcome × BeforeState :=
  match targetStep w cfg (st1 debugFlag cfg) with
  | .error m => (.err m, st1 debugFlag cfg)
  | .ok st2 =>
    ((if validationGatePasses cfg then BeforeOutcome.ok
      else .fatal "Please ensure authentication and encryption keys are set"),
     applyFormat cfg st2)

/-- app.Before (main.go 41-134): read the config file, then configure
logging and run the validation gate. -/
def before (w : World) (debugFlag : Bool) : BeforeOutcome × BeforeState :=
  match w.readConfig with
  | none =>
    (.err "Failed reading config file",
     { log := initLogState, logFile := none, watcherStarted := false })
  | some cfg => beforeWithConfig w debugFlag cfg

/-- The subcommands of main.go with their uid flag; cli returns the empty
string both for an absent and for an explicitly empty --uid. -/
inductive Cmd where
  | server
  | resetpw (uid : String)
  | verifyEmail (uid : String)
  | status (uid : String)
  deriving DecidableEq

/-- The external collaborators (server.Run, tools.SendResetPasswordEmail,
tools.SendVerifyEmail, tools.Status) as oracles: `none` is success,
`some e` is the returned error text. -/
structure Collab where
  runServer : Option String
  sendResetPasswordEmail : String → Option String
  sendVerifyEmail : String → Option String
  status : String → Option String

/-- How a command action finishes: success, a cli.NewExitError with a
message and an exit code, or a log.Fatal (server action only: main.go 148
exits the process before the dead `return` on line 149 can run). -/
inductive ActionOutcome where
  | ok
  | exitError (msg : String) (code : Nat)
  | fatal (msg : String)
  deriving DecidableEq

/-- The four command actions (main.go 141-214). The second component
lists the collaborator invocations the action performed, in order. -/
def runAction (collab : Collab) : Cmd → ActionOutcome × List String
  | .server =>
    match collab.runServer with
    | none => (.ok, ["RunServer"])
    | some e => (.fatal e, ["RunServer"])
  | .resetpw uid =>
    if uid.length = 0 then (.exitError "Please provide a uid" 1, [])
    else
      match collab.sendResetPasswordEmail uid with
      | none => (.ok, ["SendResetPasswordEmail " ++ uid])
      | some e => (.exitError e 1, ["SendResetPasswordEmail " ++ uid])
  | .verifyEmail uid =>
    if uid.length = 0 then (.exitError "Please provide a uid" 1, [])
    else
      match collab.sendVerifyEmail uid with
      | none => (.ok, ["SendVerifyEmail " ++ uid])
      | some e => (.exitError e 1, ["SendVerifyEmail " ++ uid])
  | .status uid =>
    if uid.length = 0 then (.exitError "Please provide a uid" 1, [])
    else
      match collab.status uid with
      | none => (.ok, ["Status " ++ uid])
      | some e => (.exitError e 1, ["Status " ++ uid])

/-- app.After (main.go 135-140): close the global logFile when set,
otherwise succeed. Returns the close error (if any) and whether a Close
was attempted. -/
def afterHook (w : World) (st : BeforeState) : Option String × Bool :=
  match st.logFile with
  | some _ => ((if w.closeOk then none else some "close failed"), true)
  | none => (none, false)

/-- Everything observable about one whole run of the process. -/
structure RunResult where
  exitCode : Nat
  calls : List String
  printed : List String
  fatalLog : Option String
  afterRan : Bool
  closeAttempted : Bool
  afterErr : Option String
  logFileFinal : Option Handle
  watcherStarted : Bool
  deriving DecidableEq

/-- app.RunAndExitOnError over the whole lifecycle. Before runs first;
if it returns an error the deferred After still runs and the process
exits 1 after printing the error. If Before (gate) or the server action
calls log.Fatal, os.Exit(1) runs immediately and the deferred After is
skipped. If the command action returns a cli.NewExitError,
Command.Run's HandleExitCoder prints the message and calls
os.Exit(code) inside the dispatcher, also skipping the deferred After.
Only when the action returns nil does After run after the command; an
After failure alone then exits 1 instead of 0. -/
def runApp (w : World) (debugFlag : Bool) (cmd : Cmd) (collab : Collab) : RunResult :=
  match before w debugFlag with
  | (.err m, st) =>
    { exitCode := 1, calls := [], printed := [m] ++ (afterHook w st).1.toList
      fatalLog := none
      afterRan := true, closeAttempted := (afterHook w st).2, afterErr := (afterHook w st).1
      logFileFinal := st.logFile, watcherStarted := st.watcherStarted }
  | (.fatal m, st) =>
    { exitCode := 1, calls := [], printed := [], fatalLog := some m
      afterRan := false, closeAttempted := false, afterErr := none
      logFileFinal := st.logFile, watcherStarted := st.watcherStarted }
  | (.ok, st) =>
    match (runAction collab cmd).1 with
    | .fatal m =>
      { exitCode := 1, calls := (runAction collab cmd).2, printed := [], fatalLog := some m
        afterRan := false, closeAttempted := false, afterErr := none
        logFileFinal := st.logFile, watcherStarted := st.watcherStarted }
    | .ok =>
      { exitCode := if (afterHook w st).1.isSome then 1 else 0
        calls := (runAction collab cmd).2
        printed := (afterHook w st).1.toList, fatalLog := none
        afterRan := true, closeAttempted := (afterHook w st).2, afterErr := (afterHook w st).1
        logFileFinal := st.logFile, watcherStarted := st.watcherStarted }
    | .exitError m code =>
      { exitCode := code, calls := (runAction collab cmd).2
        printed := [m], fatalLog := none
        afterRan := false, closeAttempted := false, afterErr := none
        logFileFinal := st.logFile, watcherStarted := st.watcherStarted }

/-- How one iteration of the rotation goroutine finishes. An unrecovered
panic in a goroutine aborts the whole Go process, so `panicked` is
abnormal process termination. -/
inductive RotOutcome where
  | panicked (msg : String)
  | reloaded (st : BeforeState) (infoMsg : String)
  deriving DecidableEq

/-- The body of the SIGHUP rotation goroutine, per received signal
(main.go 94-106): close the old handle ignoring any close error, reopen
the configured path; on failure panic, on success install the new handle
and log one info record. -/
def rotationStep (w : World) (cfg : Config) (st : BeforeState) : RotOutcome :=
  match w.openLogFile (getString cfg.log_file) with
  | none => .panicked "Failed to reload log file"
  | some h =>
    .reloaded { st with logFile := some h, log := { st.log with output := .file h } }
      "Log file successfully reloaded"

/-- The flag set of both os.OpenFile calls in main.go (lines 81 and 98):
O_CREATE and O_APPEND are passed, O_TRUNC is not. -/
structure OpenFlags where
  create : Bool
  append : Bool
  trunc : Bool
  deriving DecidableEq

/-- The flags main.go passes: os.O_CREATE, os.O_WRONLY, os.O_APPEND. -/
def logOpenFlags : OpenFlags :=
  { create := true, append := true, trunc := false }

/-- A writable open file: its record contents and the write position. -/
structure OpenFile where
  contents : List String
  pos : Nat
  deriving DecidableEq

/-- POSIX content semantics of open-for-write: truncate empties an
existing file, create makes an absent file empty, an absent file without
create is an error. -/
def openContents (f : OpenFlags) (disk : Option (List String)) : Option (List String) :=
  match disk with
  | some c => some (if f.trunc then [] else c)
  | none => if f.create then some [] else none

/-- Open a file for writing; with O_APPEND the position starts (and
stays) at end-of-file. -/
def openAt (f : OpenFlags) (disk : Option (List String)) : Option OpenFile :=
  (openContents f disk).map fun c =>
    { contents := c, pos := if f.append then c.length else 0 }

/-- One record write: with O_APPEND the kernel writes at end-of-file
regardless of the current position; otherwise the write lands at the
current position, overwriting. -/
def writeRecord (f : OpenFlags) (fl : OpenFile) (r : String) : OpenFile :=
  let p := if f.append then fl.contents.length else fl.pos
  { contents := fl.contents.take p ++ [r] ++ fl.contents.drop (p + 1), pos := p + 1 }

/-- Write a list of records in order. -/
def writeAll (f : OpenFlags) (fl : OpenFile) (rs : List String) : OpenFile :=
  rs.foldl (writeRecord f) fl

/-- The destinations a log record is emitted to, derived from the logger
state: the installed output writer, plus syslog when the hook is
attached. -/
inductive Dest where
  | stderr
  | stdout
  | file
  | syslog
  deriving DecidableEq

/-- Destination of the installed output writer. -/
def Output.toDest : Output → Dest
  | .stderr => .stderr
  | .stdout => .stdout
  | .file _ => .file

/-- All destinations of the logger state: the output writer, and syslog
additionally when the hook is attached. -/
def LogState.destinations (st : LogState) : List Dest :=
  [st.output.toDest] ++ (if st.syslogHook then [Dest.syslog] else [])

/-- Case-sensitive lookup of a string in an association table. -/
def lookupTable : List (String × Level) → String → Option Level
  | [], _ => none
  | (k, v) :: rest, s => if s = k then some v else lookupTable rest s

/-- The severity table of spec section 4.2, written from the spec words
as a lookup table, to be compared with the switch translated from the
source. -/
def specLevelTable (s : String) : Level :=
  (lookupTable
    [("error", Level.error), ("warn", Level.warn),
     ("info", Level.info), ("debug", Level.debug)] s).getD .warn

/-- Threshold selection as the spec words it: the debug flag forces
debug, otherwise the table applies to the configured string, with warn
for anything unrecognized or absent. -/
def specThreshold (debugFlag : Bool) (log_level : Option String) : Level :=
  if debugFlag then .debug else specLevelTable (getString log_level)

/-- The destinations each log_target value should yield, per the amended
reading of the source: the three writer targets install exactly their
writer, syslog leaves the default stderr writer in place and adds the
syslog hook, anything unrecognized falls back to stderr. -/
def expectedDests (cfg : Config) : List Dest :=
  if getString cfg.log_target = "stderr" then [Dest.stderr]
  else if getString cfg.log_target = "stdout" then [Dest.stdout]
  else if getString cfg.log_target = "file" then [Dest.file]
  else if getString cfg.log_target = "syslog" then [Dest.stderr, Dest.syslog]
  else [Dest.stderr]

/-- Configuration missing the encryption key (auth_key present),
otherwise a plain stderr setup. -/
def cfgC1 : Config :=
  { log_level := some "warn", log_target := some "stderr", log_file := none,
    log_format := none, enc_key := none, auth_key := some "secret" }

/-- World that reads cfgC1 successfully. -/
def wC1 : World :=
  { readConfig := some cfgC1, openLogFile := fun _ => none,
    syslogOk := true, closeOk := true }

/-- Collaborator oracle whose every operation would succeed, to show no
call is ever recorded. -/
def collabC1 : Collab :=
  { runServer := none, sendResetPasswordEmail := fun _ => none,
    sendVerifyEmail := fun _ => none, status := fun _ => none }

/-- Configuration acceptable to the gate with a stderr target. -/
def cfgC2 : Config :=
  { log_level := some "info", log_target := some "stderr", log_file := none,
    log_format := none, enc_key := some "k1", auth_key := some "k2" }

/-- World that reads cfgC2 successfully. -/
def wC2 : World :=
  { readConfig := some cfgC2, openLogFile := fun _ => none,
    syslogOk := true, closeOk := true }

/-- Collaborator oracle that would succeed on every call, to show the
missing-uid failure happens before any call. -/
def collabC2 : Collab :=
  { runServer := none, sendResetPasswordEmail := fun _ => none,
    sendVerifyEmail := fun _ => none, status := fun _ => none }

/-- Configuration selecting the syslog target, with keys present. -/
def cfgC3 : Config :=
  { log_level := some "info", log_target := some "syslog", log_file := none,
    log_format := none, enc_key := some "k1", auth_key := some "k2" }

/-- World that reads cfgC3 and whose syslog setup succeeds. -/
def wC3 : World :=
  { readConfig := some cfgC3, openLogFile := fun _ => none,
    syslogOk := true, closeOk := true }

/-- Configuration selecting the stdout target, for the amended C3
witness. -/
def cfgC3a : Config :=
  { log_level := some "warn", log_target := some "stdout", log_file := none,
    log_format := none, enc_key := some "k1", auth_key := some "k2" }

/-- World that reads cfgC3a successfully. -/
def wC3a : World :=
  { readConfig := some cfgC3a, openLogFile := fun _ => none,
    syslogOk := false, closeOk := true }

/-- Configuration selecting the file target with an absent log_file. -/
def cfgC5 : Config :=
  { log_level := some "info", log_target := some "file", log_file := none,
    log_format := none, enc_key := some "k1", auth_key := some "k2" }

/-- World that reads cfgC5 and whose openLogFile would even succeed,
showing the failure happens without consulting it. -/
def wC5 : World :=
  { readConfig := some cfgC5, openLogFile := fun _ => some 7,
    syslogOk := true, closeOk := true }

/-- Configuration with the file target and a valid path, keys present. -/
def cfgC7 : Config :=
  { log_level := some "info", log_target := some "file",
    log_file := some "/var/log/mokey.log",
    log_format := none, enc_key := some "k1", auth_key := some "k2" }

/-- World that reads cfgC7 and opens the log file as handle 3. -/
def wC7 : World :=
  { readConfig := some cfgC7, openLogFile := fun _ => some 3,
    syslogOk := true, closeOk := true }

/-- Collaborator oracle whose server run fails. -/
def collabC7 : Collab :=
  { runServer := some "server boom", sendResetPasswordEmail := fun _ => none,
    sendVerifyEmail := fun _ => none, status := fun _ => none }

/-- World like wC7 but whose Close fails, for the amended witness. -/
def wC7w : World :=
  { readConfig := some cfgC7, openLogFile := fun _ => some 3,
    syslogOk := true, closeOk := false }

/-- Collaborator oracle whose every operation succeeds. -/
def collabC7w : Collab :=
  { runServer := none, sendResetPasswordEmail := fun _ => none,
    sendVerifyEmail := fun _ => none, status := fun _ => none }

/-- Configuration in which both secret keys are present but hold the
empty string, with an otherwise unremarkable stderr setup. -/
def cfgC9 : Config :=
  { log_level := some "info", log_target := some "stderr", log_file := none,
    log_format := none, enc_key := some "", auth_key := some "" }

/-- World that reads cfgC9 successfully. -/
def wC9 : World :=
  { readConfig := some cfgC9, openLogFile := fun _ => none,
    syslogOk := false, closeOk := true }

/-- Configuration with the stdout target (not file). -/
def cfgC10 : Config :=
  { log_level := some "debug", log_target := some "stdout", log_file := some "/tmp/x.log",
    log_format := some "json", enc_key := some "k1", auth_key := some "k2" }

/-- World that reads cfgC10; its openLogFile would succeed, showing the
file machinery is simply never engaged. -/
def wC10 : World :=
  { readConfig := some cfgC10, openLogFile := fun _ => some 9,
    syslogOk := true, closeOk := false }

/-- Collaborator oracle for the C10 witness run. -/
def collabC10 : Collab :=
  { runServer := none, sendResetPasswordEmail := fun _ => none,
    sendVerifyEmail := fun _ => none, status := fun _ => none }

section Helpers

variable (w : World) (d : Bool) (cfg : Config)

/-- Reading the config successfully reduces before to beforeWithConfig. -/
theorem before_eq_withConfig (hc : w.readConfig = some cfg) :
    before w d = beforeWithConfig w d cfg := by
  simp [before, hc]

/-- applyFormat only touches the formatter field. -/
theorem applyFormat_fields (st : BeforeState) :
    (applyFormat cfg st).logFile = st.logFile ∧
    (applyFormat cfg st).watcherStarted = st.watcherStarted ∧
    (applyFormat cfg st).log.output = st.log.output ∧
    (applyFormat cfg st).log.syslogHook = st.log.syslogHook ∧
    (applyFormat cfg st).log.level = st.log.level := by
  unfold applyFormat
  split <;> simp

/-- The after hook attempts a Close exactly when the global logFile is
set, and can only fail when it attempts one. -/
theorem afterHook_spec (st : BeforeState) :
    (afterHook w st).2 = st.logFile.isSome ∧
    (st.logFile = none → afterHook w st = (none, false)) := by
  cases h : st.logFile <;> simp [afterHook, h]

/-- Unless the target is the file target, the target switch leaves the
logFile and watcher state untouched. -/
theorem targetStep_no_file (st st2 : BeforeState)
    (ht : getString cfg.log_target ≠ "file")
    (h : targetStep w cfg st = .ok st2) :
    st2.logFile = st.logFile ∧ st2.watcherStarted = st.watcherStarted := by
  unfold targetStep at h
  split_ifs at h with h1 h2 h3 h4
  · injection h with h; subst h; simp
  · injection h with h; subst h; simp
  · injection h with h; subst h; simp
  · injection h with h; subst h; simp

end Helpers

section RunAppHelpers

variable (w : World) (d : Bool) (cmd : Cmd) (collab : Collab)

/-- runApp when app.Before returns an error. -/
theorem runApp_err (m : String) (st : BeforeState)
    (hb : before w d = (.err m, st)) :
    runApp w d cmd collab =
      { exitCode := 1, calls := [], printed := [m] ++ (afterHook w st).1.toList
        fatalLog := none
        afterRan := true, closeAttempted := (afterHook w st).2, afterErr := (afterHook w st).1
        logFileFinal := st.logFile, watcherStarted := st.watcherStarted } := by
  simp [runApp, hb]

/-- runApp when app.Before ends in log.Fatal. -/
theorem runApp_fatal (m : String) (st : BeforeState)
    (hb : before w d = (.fatal m, st)) :
    runApp w d cmd collab =
      { exitCode := 1, calls := [], printed := [], fatalLog := some m
        afterRan := false, closeAttempted := false, afterErr := none
        logFileFinal := st.logFile, watcherStarted := st.watcherStarted } := by
  simp [runApp, hb]

/-- runApp when Before succeeds and the action returns a
cli.NewExitError: HandleExitCoder prints the message and calls
os.Exit(code) inside Command.Run, skipping the deferred After. -/
theorem runApp_ok_exitError (st : BeforeState) (m : String) (code : Nat) (cs : List String)
    (hb : before w d = (.ok, st))
    (ha : runAction collab cmd = (.exitError m code, cs)) :
    runApp w d cmd collab =
      { exitCode := code, calls := cs, printed := [m]
        fatalLog := none
        afterRan := false, closeAttempted := false, afterErr := none
        logFileFinal := st.logFile, watcherStarted := st.watcherStarted } := by
  simp [runApp, hb, ha]

/-- runApp when Before succeeds and the action succeeds. -/
theorem runApp_ok_ok (st : BeforeState) (cs : List String)
    (hb : before w d = (.ok, st))
    (ha : runAction collab cmd = (.ok, cs)) :
    runApp w d cmd collab =
      { exitCode := if (afterHook w st).1.isSome then 1 else 0, calls := cs
        printed := (afterHook w st).1.toList, fatalLog := none
        afterRan := true, closeAttempted := (afterHook w st).2, afterErr := (afterHook w st).1
        logFileFinal := st.logFile, watcherStarted := st.watcherStarted } := by
  simp [runApp, hb, ha]

/-- runApp when Before succeeds and the action calls log.Fatal (server
action with a collaborator error): os.Exit(1) skips the deferred
After. -/
theorem runApp_ok_actionFatal (st : BeforeState) (m : String) (cs : List String)
    (hb : before w d = (.ok, st))
    (ha : runAction collab cmd = (.fatal m, cs)) :
    runApp w d cmd collab =
      { exitCode := 1, calls := cs, printed := [], fatalLog := some m
        afterRan := false, closeAttempted := false, afterErr := none
        logFileFinal := st.logFile, watcherStarted := st.watcherStarted } := by
  simp [runApp, hb, ha]

/-- The final run state always carries Before's logFile and watcher
state, and with no open logFile the after hook neither closes nor
fails. -/
theorem runApp_state_fields :
    (runApp w d cmd collab).logFileFinal = (before w d).2.logFile ∧
    (runApp w d cmd collab).watcherStarted = (before w d).2.watcherStarted ∧
    ((before w d).2.logFile = none →
      (runApp w d cmd collab).closeAttempted = false ∧
      (runApp w d cmd collab).afterErr = none) := by
  rcases hb : before w d with ⟨o, st⟩
  cases o with
  | err m =>
    rw [runApp_err w d cmd collab m st hb]
    refine ⟨rfl, rfl, fun hn => ?_⟩
    obtain ⟨-, h0⟩ := afterHook_spec w st
    simp [h0 hn]
  | fatal m =>
    rw [runApp_fatal w d cmd collab m st hb]
    exact ⟨rfl, rfl, fun _ => ⟨rfl, rfl⟩⟩
  | ok =>
    rcases ha : runAction collab cmd with ⟨ao, cs⟩
    cases ao with
    | ok =>
      rw [runApp_ok_ok w d cmd collab st cs hb ha]
      refine ⟨rfl, rfl, fun hn => ?_⟩
      obtain ⟨-, h0⟩ := afterHook_spec w st
      simp [h0 hn]
    | exitError m code =>
      rw [runApp_ok_exitError w d cmd collab st m code cs hb ha]
      exact ⟨rfl, rfl, fun _ => ⟨rfl, rfl⟩⟩
    | fatal m =>
      rw [runApp_ok_actionFatal w d cmd collab st m cs hb ha]
      exact ⟨rfl, rfl, fun _ => ⟨rfl, rfl⟩⟩

end RunAppHelpers

/-- Before's state has no logFile and no watcher when the configured
target is anything other than the file target. -/
theorem before_no_file_state (w : World) (d : Bool) (cfg : Config)
    (hc : w.readConfig = some cfg) (ht : getString cfg.log_target ≠ "file") :
    (before w d).2.logFile = none ∧ (before w d).2.watcherStarted = false := by
  rw [before_eq_withConfig w d cfg hc]
  unfold beforeWithConfig
  cases h : targetStep w cfg (st1 d cfg) with
  | error m => exact ⟨rfl, rfl⟩
  | ok st2 =>
    obtain ⟨h1, h2⟩ := targetStep_no_file w cfg (st1 d cfg) st2 ht h
    obtain ⟨a1, a2, -⟩ := applyFormat_fields cfg st2
    constructor
    · show (applyFormat cfg st2).logFile = none
      rw [a1, h1]; rfl
    · show (applyFormat cfg st2).watcherStarted = false
      rw [a2, h2]; rfl

/-- C1: for every configuration missing enc_key or auth_key (either or
both), startup terminates before any command executes and before any
collaborator is invoked: no collaborator call happens and the exit
status is non-zero; moreover whenever logging setup itself did not
error out (so logging is configured), app.Before ends in log.Fatal,
logging the fatal-level gate record, and the process terminates with
status 1 (and, being os.Exit, without running the After hook). -/
theorem C1_missing_keys_abort (w : World) (d : Bool) (cmd : Cmd) (collab : Collab)
    (cfg : Config)
    (hc : w.readConfig = some cfg)
    (hmiss : isSet cfg.enc_key = false ∨ isSet cfg.auth_key = false) :
    (runApp w d cmd collab).calls = [] ∧
    (runApp w d cmd collab).exitCode = 1 ∧
    ((before w d).1.isErr = false →
      (before w d).1 = .fatal "Please ensure authentication and encryption keys are set" ∧
      (runApp w d cmd collab).fatalLog =
        some "Please ensure authentication and encryption keys are set" ∧
      (runApp w d cmd collab).afterRan = false) := by
  have hg : validationGatePasses cfg = false := by
    unfold validationGatePasses
    rcases hmiss with h | h <;> simp [h]
  have hb := before_eq_withConfig w d cfg hc
  unfold beforeWithConfig at hb
  cases h : targetStep w cfg (st1 d cfg) with
  | error m =>
    rw [h] at hb
    rw [runApp_err w d cmd collab m (st1 d cfg) hb]
    refine ⟨rfl, rfl, fun hcon => ?_⟩
    rw [hb] at hcon
    simp [BeforeOutcome.isErr] at hcon
  | ok st2 =>
    rw [h] at hb
    simp only [hg, Bool.false_eq_true, if_false] at hb
    rw [runApp_fatal w d cmd collab _ _ hb]
    exact ⟨rfl, rfl, fun _ => ⟨by rw [hb], rfl, rfl⟩⟩

/-- Witness for C1 at a concrete configuration missing enc_key: the run
invokes no collaborator, exits 1, and the gate logs its fatal record. -/
theorem C1_missing_keys_abort_witness :
    (runApp wC1 false (Cmd.status "alice") collabC1).calls = [] ∧
    (runApp wC1 false (Cmd.status "alice") collabC1).exitCode = 1 ∧
    ((before wC1 false).1.isErr = false →
      (before wC1 false).1 =
        .fatal "Please ensure authentication and encryption keys are set" ∧
      (runApp wC1 false (Cmd.status "alice") collabC1).fatalLog =
        some "Please ensure authentication and encryption keys are set" ∧
      (runApp wC1 false (Cmd.status "alice") collabC1).afterRan = false) :=
  C1_missing_keys_abort wC1 false (Cmd.status "alice") collabC1 cfgC1 rfl (Or.inl rfl)

/-- C2: for every invocation of resetpw, verify-email, or status with an
empty or absent uid flag (cli yields the empty string for both), the
action returns the ExitError "Please provide a uid" with code 1 and
invokes no collaborator; consequently, whenever startup succeeded, the
whole run exits 1 with that message printed first and an empty
collaborator call log. -/
theorem C2_missing_uid (collab : Collab) (w : World) (d : Bool) (uid : String)
    (hu : uid.length = 0) :
    runAction collab (.resetpw uid) = (.exitError "Please provide a uid" 1, []) ∧
    runAction collab (.verifyEmail uid) = (.exitError "Please provide a uid" 1, []) ∧
    runAction collab (.status uid) = (.exitError "Please provide a uid" 1, []) ∧
    ((before w d).1 = .ok →
      ∀ cmd : Cmd,
        (cmd = .resetpw uid ∨ cmd = .verifyEmail uid ∨ cmd = .status uid) →
        (runApp w d cmd collab).exitCode = 1 ∧
        (runApp w d cmd collab).calls = [] ∧
        (runApp w d cmd collab).printed.head? = some "Please provide a uid") := by
  have h1 : runAction collab (.resetpw uid) = (.exitError "Please provide a uid" 1, []) := by
    simp [runAction, hu]
  have h2 : runAction collab (.verifyEmail uid) = (.exitError "Please provide a uid" 1, []) := by
    simp [runAction, hu]
  have h3 : runAction collab (.status uid) = (.exitError "Please provide a uid" 1, []) := by
    simp [runAction, hu]
  refine ⟨h1, h2, h3, fun hok cmd hcmd => ?_⟩
  have hb : before w d = (.ok, (before w d).2) := by rw [← hok]
  have ha : runAction collab cmd = (.exitError "Please provide a uid" 1, []) := by
    rcases hcmd with h | h | h <;> rw [h] <;> assumption
  rw [runApp_ok_exitError w d cmd collab (before w d).2 _ _ _ hb ha]
  exact ⟨rfl, rfl, rfl⟩

/-- Witness for C2 at the empty uid: resetpw with an empty uid exits 1
with the message and calls nothing. -/
theorem C2_missing_uid_witness :
    runAction collabC2 (.resetpw "") = (.exitError "Please provide a uid" 1, []) ∧
    (runApp wC2 false (Cmd.resetpw "") collabC2).exitCode = 1 ∧
    (runApp wC2 false (Cmd.resetpw "") collabC2).calls = [] ∧
    (runApp wC2 false (Cmd.resetpw "") collabC2).printed.head? =
      some "Please provide a uid" := by
  obtain ⟨h1, -, -, h4⟩ := C2_missing_uid collabC2 wC2 false "" rfl
  obtain ⟨e1, e2, e3⟩ := h4 rfl (Cmd.resetpw "") (Or.inl rfl)
  exact ⟨h1, e1, e2, e3⟩

/-- C4: Severity threshold selection: if the --debug flag is supplied,
the threshold is debug regardless of the configured log_level; otherwise
the configured string maps case-sensitively via error to error, warn to
warn, info to info, debug to debug, and any unrecognized or absent value
yields warn. Stated as: the switch translated from main.go 52-67 agrees
with the table written from the spec words, on every flag value and
every configured string (including the absent case `none`). -/
theorem C4_severity_threshold (d : Bool) (s : Option String) :
    setLevelFrom d s = specThreshold d s := by
  cases d with
  | true => simp [setLevelFrom, specThreshold]
  | false =>
    simp only [setLevelFrom, specThreshold, specLevelTable, lookupTable]
    split_ifs with h1 h2 h3 h4 <;> simp_all

/-- C6: whenever the rotation watcher fails to re-open the configured
log file after receiving the rotation signal, the iteration panics
(which, unrecovered inside a goroutine, terminates the whole Go
process); it never continues with a reloaded state, so the process never
keeps running with the logging sink lost. -/
theorem C6_reopen_failure_fatal (w : World) (cfg : Config) (st : BeforeState)
    (h : w.openLogFile (getString cfg.log_file) = none) :
    rotationStep w cfg st = .panicked "Failed to reload log file" ∧
    ∀ st2 msg, rotationStep w cfg st ≠ .reloaded st2 msg := by
  refine ⟨by simp [rotationStep, h], ?_⟩
  intro st2 msg hcon
  simp [rotationStep, h] at hcon

/-- Witness for C6 at a concrete world whose reopen always fails. -/
theorem C6_reopen_failure_fatal_witness :
    rotationStep
      { readConfig := none, openLogFile := fun _ => none,
        syslogOk := true, closeOk := true }
      { log_level := none, log_target := some "file", log_file := some "/tmp/t.log",
        log_format := none, enc_key := some "x", auth_key := some "y" }
      { log := initLogState, logFile := some 1, watcherStarted := true }
      = .panicked "Failed to reload log file" :=
  (C6_reopen_failure_fatal _ _ _ rfl).1

/-- Contents after a sequence of appending writes. -/
theorem writeAll_append_contents (rs : List String) (fl : OpenFile) :
    (writeAll logOpenFlags fl rs).contents = fl.contents ++ rs := by
  induction rs generalizing fl with
  | nil => simp [writeAll]
  | cons r rs ih =>
    show (writeAll logOpenFlags (writeRecord logOpenFlags fl r) rs).contents = _
    rw [ih]
    simp [writeRecord, logOpenFlags]

/-- C8: round-trip/append property of rotation: re-opening the log file
with the flag set main.go uses (O_CREATE, O_WRONLY, O_APPEND — no
O_TRUNC) preserves every record already in the file, and every record
written afterwards lands strictly after them: the final contents are
exactly the old records followed by the new ones, so the old records are
the prefix of the file; an absent file is created empty rather than
failing, and truncation is never requested. -/
theorem C8_rotation_append (old new : List String) :
    openAt logOpenFlags (some old) = some { contents := old, pos := old.length } ∧
    (writeAll logOpenFlags { contents := old, pos := old.length } new).contents
      = old ++ new ∧
    ((writeAll logOpenFlags { contents := old, pos := old.length } new).contents).take
        old.length = old ∧
    openAt logOpenFlags none = some { contents := [], pos := 0 } ∧
    logOpenFlags.trunc = false := by
  refine ⟨by simp [openAt, openContents, logOpenFlags], ?_, ?_, by rfl, by rfl⟩
  · exact writeAll_append_contents new _
  · rw [writeAll_append_contents new _]
    simp

/-- C3 counterexample: for log_target "syslog" (with syslog setup
succeeding) Configure does not select the syslog sink as the logging
output: the output stays at the default stderr writer and a syslog hook
is merely added, so records go to two destinations, not exactly the one
corresponding sink. -/
theorem C3_counterexample :
    (before wC3 false).1 = .ok ∧
    (before wC3 false).2.log.output = Output.stderr ∧
    (before wC3 false).2.log.syslogHook = true ∧
    (before wC3 false).2.log.destinations = [Dest.stderr, Dest.syslog] ∧
    [Dest.stderr, Dest.syslog] ≠ [Dest.syslog] :=
  ⟨rfl, rfl, rfl, rfl, by decide⟩

/-- C3 amended: whenever app.Before gets through logging setup without
error, the emission destinations are: exactly the corresponding sink for
the stderr, stdout, and file targets, and stderr for any unrecognized
value; for syslog the output remains the default stderr and the syslog
hook is added, so records are emitted to both stderr and syslog. -/
theorem C3_amended_destinations (w : World) (d : Bool) (cfg : Config)
    (hc : w.readConfig = some cfg)
    (he : (before w d).1.isErr = false) :
    (before w d).2.log.destinations = expectedDests cfg := by
  have hb := before_eq_withConfig w d cfg hc
  unfold beforeWithConfig at hb
  cases h : targetStep w cfg (st1 d cfg) with
  | error m =>
    rw [h] at hb
    rw [hb] at he
    simp [BeforeOutcome.isErr] at he
  | ok st2 =>
    rw [h] at hb
    have h2 : (before w d).2 = applyFormat cfg st2 := by rw [hb]
    obtain ⟨-, -, ao, ah, -⟩ := applyFormat_fields cfg st2
    have hdest : (before w d).2.log.destinations = st2.log.destinations := by
      rw [h2]
      unfold LogState.destinations
      rw [ao, ah]
    rw [hdest]
    unfold targetStep at h
    unfold expectedDests
    split_ifs at h ⊢ with h1 h2t h3 h4
    · injection h with h; subst h
      simp [LogState.destinations, Output.toDest, st1, initLogState]
    · injection h with h; subst h
      simp [LogState.destinations, Output.toDest, st1, initLogState]
    · rcases ho : w.openLogFile (getString cfg.log_file) with - | hh
      · rw [ho] at h
        exact absurd h (by simp)
      · rw [ho] at h
        injection h with h; subst h
        simp [LogState.destinations, Output.toDest, st1, initLogState]
    · injection h with h; subst h
      simp [LogState.destinations, Output.toDest, st1, initLogState]
    · injection h with h; subst h
      simp [LogState.destinations, Output.toDest, st1, initLogState]

/-- Witness for the amended C3 at a stdout-target configuration: the
destinations are exactly the stdout sink. -/
theorem C3_amended_destinations_witness :
    (before wC3a false).2.log.destinations = [Dest.stdout] :=
  C3_amended_destinations wC3a false cfgC3a rfl rfl

/-- C7 counterexample: with the file target open (handle 3), a server
command whose collaborator errors calls log.Fatal, so os.Exit(1) runs
and the post-run hook never executes: no Close is attempted on the open
Output Handle; likewise a status command failing with the missing-uid
ExitError exits 1 through HandleExitCoder inside the dispatcher without
the hook running. Both refute the claim that the hook runs after every
command regardless of outcome. -/
theorem C7_counterexample :
    (before wC7 false).2.logFile = some 3 ∧
    (runApp wC7 false Cmd.server collabC7).fatalLog = some "server boom" ∧
    (runApp wC7 false Cmd.server collabC7).afterRan = false ∧
    (runApp wC7 false Cmd.server collabC7).closeAttempted = false ∧
    (runApp wC7 false Cmd.server collabC7).logFileFinal = some 3 ∧
    (runApp wC7 false (Cmd.status "") collabC7).exitCode = 1 ∧
    (runApp wC7 false (Cmd.status "") collabC7).afterRan = false ∧
    (runApp wC7 false (Cmd.status "") collabC7).closeAttempted = false :=
  ⟨rfl, rfl, rfl, rfl, rfl, rfl, rfl, rfl⟩

/-- C7 amended: the post-run hook runs after a command only when its
action returns success; it then attempts to close the Output Handle
exactly when one is open, and a close failure alone is surfaced as exit
1 of the otherwise successful run (exit 0 when the close succeeds).
Every failing command skips the hook entirely: an action returning
cli.NewExitError exits through HandleExitCoder inside the dispatcher
with its own code and no Close attempted, and a failing server run
exits 1 through log.Fatal, also with no Close attempted — so a close
failure can never mask a failing command's exit code. -/
theorem C7_amended_after_hook (w : World) (d : Bool) (cmd : Cmd) (collab : Collab)
    (hok : (before w d).1 = .ok) :
    ((runAction collab cmd).1 = .ok →
      (runApp w d cmd collab).afterRan = true ∧
      (runApp w d cmd collab).closeAttempted = ((before w d).2.logFile).isSome ∧
      ((runApp w d cmd collab).afterErr = none → (runApp w d cmd collab).exitCode = 0) ∧
      ((runApp w d cmd collab).afterErr ≠ none → (runApp w d cmd collab).exitCode = 1)) ∧
    (∀ m c, (runAction collab cmd).1 = .exitError m c →
      (runApp w d cmd collab).exitCode = c ∧
      (runApp w d cmd collab).afterRan = false ∧
      (runApp w d cmd collab).closeAttempted = false) ∧
    (∀ m, (runAction collab cmd).1 = .fatal m →
      (runApp w d cmd collab).exitCode = 1 ∧
      (runApp w d cmd collab).afterRan = false ∧
      (runApp w d cmd collab).closeAttempted = false) := by
  have hb : before w d = (.ok, (before w d).2) := by rw [← hok]
  obtain ⟨hat, -⟩ := afterHook_spec w (before w d).2
  rcases ha : runAction collab cmd with ⟨ao, cs⟩
  cases ao with
  | ok =>
    rw [runApp_ok_ok w d cmd collab (before w d).2 cs hb ha]
    refine ⟨?_, ?_, ?_⟩
    · intro _
      refine ⟨rfl, hat, ?_, ?_⟩
      · intro hae
        have hae2 : (afterHook w (before w d).2).1 = none := hae
        simp [hae2]
      · intro hae
        rcases hx : (afterHook w (before w d).2).1 with - | e
        · exact absurd hx hae
        · simp [hx]
    · intro m c hcon
      simp at hcon
    · intro m hcon
      simp at hcon
  | exitError m c =>
    rw [runApp_ok_exitError w d cmd collab (before w d).2 m c cs hb ha]
    refine ⟨?_, ?_, ?_⟩
    · intro hcon
      simp at hcon
    · intro m2 c2 hcon
      simp only [] at hcon
      injection hcon with e1 e2
      subst e2
      exact ⟨rfl, rfl, rfl⟩
    · intro m2 hcon
      simp at hcon
  | fatal m =>
    rw [runApp_ok_actionFatal w d cmd collab (before w d).2 m cs hb ha]
    refine ⟨?_, ?_, ?_⟩
    · intro hcon
      simp at hcon
    · intro m2 c2 hcon
      simp at hcon
    · intro m2 hcon
      exact ⟨rfl, rfl, rfl⟩

/-- Witness for the amended C7: a successful status command with an open
log file whose Close fails runs the hook, attempts the Close, and exits
1 (non-zero) because of the close failure; a status command failing on
the missing uid keeps exit code 1 with the hook skipped. -/
theorem C7_amended_after_hook_witness :
    ((runApp wC7w false (Cmd.status "alice") collabC7w).afterRan = true ∧
     (runApp wC7w false (Cmd.status "alice") collabC7w).closeAttempted = true ∧
     (runApp wC7w false (Cmd.status "alice") collabC7w).exitCode = 1) ∧
    ((runApp wC7w false (Cmd.status "") collabC7w).exitCode = 1 ∧
     (runApp wC7w false (Cmd.status "") collabC7w).afterRan = false) := by
  obtain ⟨hsucc, -, -⟩ :=
    C7_amended_after_hook wC7w false (Cmd.status "alice") collabC7w rfl
  obtain ⟨h1, h2, -, h4⟩ := hsucc rfl
  obtain ⟨-, hfail, -⟩ :=
    C7_amended_after_hook wC7w false (Cmd.status "") collabC7w rfl
  obtain ⟨e1, e2, -⟩ := hfail "Please provide a uid" 1 rfl
  exact ⟨⟨h1, h2, h4 (by decide)⟩, ⟨e1, e2⟩⟩

/-- C5: for the file target with a missing or empty log_file value,
app.Before fails with the missing-log-file error, the global logFile is
never assigned and no watcher starts; and the outcome is identical for
every possible openLogFile behavior of the environment, so the open is
never attempted and no file is created. -/
theorem C5_missing_log_file (w : World) (d : Bool) (cfg : Config)
    (hc : w.readConfig = some cfg)
    (ht : getString cfg.log_target = "file")
    (hf : (getString cfg.log_file).length = 0) :
    (before w d).1 = .err "Please specify a log file" ∧
    (before w d).2.logFile = none ∧
    (before w d).2.watcherStarted = false ∧
    ∀ f, before { w with openLogFile := f } d = before w d := by
  have key : ∀ w2 : World, w2.readConfig = some cfg →
      before w2 d = (.err "Please specify a log file", st1 d cfg) := by
    intro w2 hc2
    rw [before_eq_withConfig w2 d cfg hc2]
    unfold beforeWithConfig
    have htar : targetStep w2 cfg (st1 d cfg) = .error "Please specify a log file" := by
      unfold targetStep
      rw [ht]
      simp [hf]
    rw [htar]
  refine ⟨?_, ?_, ?_, fun f => ?_⟩
  · rw [key w hc]
  · rw [key w hc]; rfl
  · rw [key w hc]; rfl
  · rw [key { w with openLogFile := f } hc, key w hc]

/-- Witness for C5 at a concrete file-target configuration with no
log_file: Before errors out and no handle is ever opened. -/
theorem C5_missing_log_file_witness :
    (before wC5 false).1 = .err "Please specify a log file" ∧
    (before wC5 false).2.logFile = none :=
  ⟨(C5_missing_log_file wC5 false cfgC5 rfl rfl rfl).1,
   (C5_missing_log_file wC5 false cfgC5 rfl rfl rfl).2.1⟩

/-- C10: whenever the configured log_target is any value other than
"file", the global logFile stays nil for the whole run (it is only ever
assigned in the file branch), no rotation watcher is started, and the
post-run hook attempts no Close and reports no error. -/
theorem C10_non_file_target (w : World) (d : Bool) (cmd : Cmd) (collab : Collab)
    (cfg : Config)
    (hc : w.readConfig = some cfg)
    (ht : getString cfg.log_target ≠ "file") :
    (runApp w d cmd collab).logFileFinal = none ∧
    (runApp w d cmd collab).watcherStarted = false ∧
    (runApp w d cmd collab).closeAttempted = false ∧
    (runApp w d cmd collab).afterErr = none := by
  obtain ⟨hlf, hws⟩ := before_no_file_state w d cfg hc ht
  obtain ⟨f1, f2, f3⟩ := runApp_state_fields w d cmd collab
  obtain ⟨f4, f5⟩ := f3 hlf
  exact ⟨by rw [f1, hlf], by rw [f2, hws], f4, f5⟩

/-- Witness for C10 at a stdout-target run: no handle, no watcher, no
close, no after error, even though Close would have failed had it been
attempted. -/
theorem C10_non_file_target_witness :
    (runApp wC10 false (Cmd.status "bob") collabC10).logFileFinal = none ∧
    (runApp wC10 false (Cmd.status "bob") collabC10).watcherStarted = false ∧
    (runApp wC10 false (Cmd.status "bob") collabC10).closeAttempted = false ∧
    (runApp wC10 false (Cmd.status "bob") collabC10).afterErr = none :=
  C10_non_file_target wC10 false (Cmd.status "bob") collabC10 cfgC10 rfl (by decide)

/-- C9 counterexample: a configuration in which both keys are present
but hold empty values passes the validation gate — app.Before completes
with ok — refuting the claim that a present-but-empty key does not pass
the gate: the gate is viper.IsSet, a presence-only check. -/
theorem C9_counterexample :
    validationGatePasses cfgC9 = true ∧
    (getString cfgC9.enc_key).length = 0 ∧
    (getString cfgC9.auth_key).length = 0 ∧
    (before wC9 false).1 = .ok :=
  ⟨rfl, rfl, rfl, rfl⟩

/-- C9 amended: the validation gate accepts a configuration exactly when
enc_key and auth_key are each present (viper.IsSet), regardless of
whether their values are empty: whenever startup gets past logging setup
without error, it completes ok if and only if both keys are present. -/
theorem C9_amended_gate_presence_only (w : World) (d : Bool) (cfg : Config)
    (hc : w.readConfig = some cfg)
    (he : (before w d).1.isErr = false) :
    ((before w d).1 = .ok ↔ (cfg.enc_key.isSome = true ∧ cfg.auth_key.isSome = true)) := by
  rw [before_eq_withConfig w d cfg hc] at he ⊢
  unfold beforeWithConfig at he ⊢
  cases h : targetStep w cfg (st1 d cfg) with
  | error m => rw [h] at he; simp [BeforeOutcome.isErr] at he
  | ok st2 =>
    by_cases hg : validationGatePasses cfg = true
    · simp only [hg, if_true]
      unfold validationGatePasses isSet at hg
      simp only [Bool.and_eq_true] at hg
      simp [hg]
    · simp only [hg, if_false]
      constructor
      · intro hcon; exact absurd hcon (by simp)
      · intro hkeys
        exact absurd (by unfold validationGatePasses isSet; simp [hkeys.1, hkeys.2]) hg

/-- Witness for C9 amended at the concrete empty-valued-keys
configuration: both keys present (though empty), so Before completes
ok. -/
theorem C9_amended_gate_presence_only_witness :
    (before wC9 false).1 = .ok :=
  (C9_amended_gate_presence_only wC9 false cfgC9 rfl rfl).mpr ⟨rfl, rfl⟩

end Mokey
